import Mathlib

/-!
# Verification of the Salesforce-analytics scoring core

Shallow embedding of the three analytics modules of the repository
(`src/analytics/lead_scoring.py`, `src/analytics/pipeline_health.py`,
`src/analytics/churn_risk.py`) together with the configuration defaults of
`config/settings.py`, and proofs of the behavioural claims made by the
specification about them.

Modelling conventions:

* Records are flat structures of `Option`-valued fields; `none` plays the
  role of a missing key / null (`NaN`) entry.  A pandas *column* exists in a
  `DataFrame` built from a list of records iff some record carries the field,
  which is expressed by `List.any (·.field.isSome)` tests mirroring the
  `df.get(col, default)` / `col not in df.columns` branches of the source.
* `LastActivityDate` uses a nested option: the outer level is column/key
  presence, the inner level distinguishes a parseable date (as an integer day
  number) from a null or unparseable one (`pd.to_datetime(..., errors
  ="coerce")` producing `NaT`).
* Money, probabilities and scores are rationals; `pd.Timestamp.now()` is an
  explicit integer parameter `now` (a day number) of the churn functions.
* `numpy.round`/Python `round` round half to even; `roundHalfEven` below
  reproduces that.
* `np.log1p` is transcendental; the lead-scoring definitions are
  parameterised by the function `log1p`, and every theorem about them holds
  for an arbitrary `log1p`.
* Calls that raise in Python (`KeyError` on a missing column) are modelled
  with `Except`/`Option` result types.
-/

/-- `Series.clip(lo, hi)` of pandas on a single (non-NaN) entry. -/
def clipQ (lo hi x : ℚ) : ℚ := max lo (min x hi)

/-- Round to the nearest integer, ties to even: the rounding used by both
`numpy.round` and Python's built-in `round`. -/
def roundHalfEven (y : ℚ) : ℤ :=
  if y - (⌊y⌋ : ℚ) < 1/2 then ⌊y⌋
  else if 1/2 < y - (⌊y⌋ : ℚ) then ⌊y⌋ + 1
  else if 2 ∣ ⌊y⌋ then ⌊y⌋ else ⌊y⌋ + 1

/-- `round(x, k)`: round `x` to `k` decimal places (half to even). -/
def roundQ (k : ℕ) (x : ℚ) : ℚ := (roundHalfEven (x * 10 ^ k) : ℚ) / 10 ^ k

/-- Insert an element into a list so that it lands before the first element
`y` with `le x y`. -/
def insertBy {α : Type} (le : α → α → Bool) (x : α) : List α → List α
  | [] => [x]
  | y :: ys => if le x y then x :: y :: ys else y :: insertBy le x ys

/-- Insertion sort by a boolean "comes-no-later-than" relation; used to model
`DataFrame.sort_values`. -/
def sortBy {α : Type} (le : α → α → Bool) : List α → List α
  | [] => []
  | x :: xs => insertBy le x (sortBy le xs)

/-- Arithmetic mean of a list of rationals (the caller guards emptiness, as
pandas' `mean` does via `NaN`). -/
def meanQ (l : List ℚ) : ℚ := l.sum / l.length

/-- Median of a list of rationals: average of the one or two middle values of
the sorted list, as pandas' `median` computes it. -/
def medianQ (l : List ℚ) : ℚ :=
  let s := sortBy (fun a b => decide (a ≤ b)) l
  let n := s.length
  if n % 2 = 1 then s.getD (n / 2) 0
  else (s.getD (n / 2 - 1) 0 + s.getD (n / 2) 0) / 2

theorem le_clipQ {lo hi x : ℚ} : lo ≤ clipQ lo hi x := le_max_left _ _

theorem clipQ_le {lo hi x : ℚ} (h : lo ≤ hi) : clipQ lo hi x ≤ hi :=
  max_le h (min_le_right _ _)

theorem clipQ_eq_one {x : ℚ} (h : 1 ≤ x) : clipQ 0 1 x = 1 := by
  unfold clipQ
  rw [min_eq_right h, max_eq_right (by norm_num)]

theorem roundHalfEven_le {y : ℚ} {m : ℤ} (h : y ≤ (m : ℚ)) : roundHalfEven y ≤ m := by
  have hfl : ⌊y⌋ ≤ m := by
    have := Int.floor_le_floor h
    simpa using this
  unfold roundHalfEven
  split
  · exact hfl
  · rename_i h1
    have hne : ⌊y⌋ ≠ m ∨ ⌊y⌋ = m := (ne_or_eq _ _)
    rcases hne with hne | heq
    · split
      · omega
      · split <;> omega
    · exfalso
      apply h1
      have : y - (⌊y⌋ : ℚ) ≤ 0 := by
        rw [heq]; linarith
      linarith

theorem le_roundHalfEven {y : ℚ} {m : ℤ} (h : (m : ℚ) ≤ y) : m ≤ roundHalfEven y := by
  have hfl : m ≤ ⌊y⌋ := Int.le_floor.mpr h
  unfold roundHalfEven
  split
  · exact hfl
  · split
    · omega
    · split <;> omega

theorem roundQ_nonneg {k : ℕ} {x : ℚ} (h : 0 ≤ x) : 0 ≤ roundQ k x := by
  unfold roundQ
  apply div_nonneg _ (by positivity)
  have : ((0 : ℤ) : ℚ) ≤ x * 10 ^ k := by positivity
  exact_mod_cast le_roundHalfEven this

theorem roundQ_le {k : ℕ} {x : ℚ} {m : ℤ} (h : x * 10 ^ k ≤ (m : ℚ)) :
    roundQ k x ≤ (m : ℚ) / 10 ^ k := by
  unfold roundQ
  apply div_le_div_of_nonneg_right _ (by positivity)
  exact_mod_cast roundHalfEven_le h

theorem le_roundQ {k : ℕ} {x : ℚ} {m : ℤ} (h : (m : ℚ) ≤ x * 10 ^ k) :
    (m : ℚ) / 10 ^ k ≤ roundQ k x := by
  unfold roundQ
  apply div_le_div_of_nonneg_right _ (by positivity)
  exact_mod_cast le_roundHalfEven h

theorem mem_insertBy {α : Type} {le : α → α → Bool} {x a : α} {l : List α} :
    a ∈ insertBy le x l ↔ a = x ∨ a ∈ l := by
  induction l with
  | nil => simp [insertBy]
  | cons y ys ih =>
    simp only [insertBy]
    split
    · simp
    · simp only [List.mem_cons, ih]
      tauto

theorem mem_sortBy {α : Type} {le : α → α → Bool} {a : α} {l : List α} :
    a ∈ sortBy le l ↔ a ∈ l := by
  induction l with
  | nil => simp [sortBy]
  | cons x xs ih => simp [sortBy, mem_insertBy, ih]

theorem length_filter_mono {α : Type} {p q : α → Bool} (l : List α)
    (h : ∀ x, p x = true → q x = true) :
    (l.filter p).length ≤ (l.filter q).length := by
  induction l with
  | nil => simp
  | cons x xs ih =>
    by_cases hp : p x
    · have hq := h x hp
      simp [List.filter, hp, hq]
      omega
    · simp only [List.filter]
      rw [Bool.not_eq_true] at hp
      rw [hp]
      cases hqx : q x <;> simp <;> omega

/-!
## Configuration defaults (`config/settings.py`, `ANALYTICS_CONFIG`)
-/

/-- The six lead-scoring weights (`ANALYTICS_CONFIG["lead_score_weights"]`
keys). -/
structure LeadScoreWeights where
  company_size : ℚ
  engagement_score : ℚ
  industry_match : ℚ
  budget_range : ℚ
  response_time_days : ℚ
  email_opens : ℚ
  deriving DecidableEq, Repr

/-- Default lead-score weights from `config/settings.py`. -/
def lead_score_weights : LeadScoreWeights :=
  { company_size := 0.20
    engagement_score := 0.25
    industry_match := 0.15
    budget_range := 0.20
    response_time_days := 0.10
    email_opens := 0.10 }

/-- Churn risk classification cut points
(`ANALYTICS_CONFIG["churn_risk_thresholds"]`). -/
structure ChurnRiskThresholds where
  high : ℚ
  medium : ℚ
  low : ℚ
  deriving DecidableEq, Repr

/-- Default churn thresholds from `config/settings.py`. -/
def churn_risk_thresholds : ChurnRiskThresholds :=
  { high := 0.7, medium := 0.4, low := 0.0 }

/-- `ANALYTICS_CONFIG["pipeline_health_stages"]`: the fixed ordered stage
list. -/
def pipeline_health_stages : List String :=
  ["Prospecting", "Qualification", "Needs Analysis", "Proposal",
   "Negotiation", "Closed Won", "Closed Lost"]

/-!
## Lead scoring (`src/analytics/lead_scoring.py`)

A lead record: every field optional, `none` = key absent or null value.
`score_leads` builds `pd.DataFrame(leads)`; a column is present in that frame
iff some record supplies the field, and `df.get(column, default)` falls back
to `default` only when the whole column is absent.  The fallbacks used by the
source are *empty* or *length-one* Series, so when a column is absent the
scores produced by index alignment are `NaN` everywhere (empty-Series
default) or everywhere except row 0 (length-one default); the `Option ℚ`
results below reproduce that, with `none` for `NaN`.
-/

structure Lead where
  NumberOfEmployees : Option ℚ
  AnnualRevenue : Option ℚ
  Industry : Option String
  Website_Visits__c : Option ℚ
  Content_Downloads__c : Option ℚ
  Email_Opens__c : Option ℚ
  Days_Since_Last_Activity__c : Option ℚ
  deriving DecidableEq, Repr

/-- A row of the frame returned by `score_leads`: the input lead plus the two
derived columns (each `NaN`-able, hence optional). -/
structure ScoredLead where
  lead : Lead
  Lead_Score : Option ℚ
  Priority : Option String
  deriving DecidableEq, Repr

def hasNumberOfEmployeesCol (leads : List Lead) : Bool :=
  leads.any (·.NumberOfEmployees.isSome)

def hasAnnualRevenueCol (leads : List Lead) : Bool :=
  leads.any (·.AnnualRevenue.isSome)

def hasIndustryCol (leads : List Lead) : Bool :=
  leads.any (·.Industry.isSome)

def hasWebsiteVisitsCol (leads : List Lead) : Bool :=
  leads.any (·.Website_Visits__c.isSome)

def hasContentDownloadsCol (leads : List Lead) : Bool :=
  leads.any (·.Content_Downloads__c.isSome)

def hasEmailOpensCol (leads : List Lead) : Bool :=
  leads.any (·.Email_Opens__c.isSome)

def hasDaysSinceActivityCol (leads : List Lead) : Bool :=
  leads.any (·.Days_Since_Last_Activity__c.isSome)

/-- `_score_company_size`: `np.log1p(employees) / np.log1p(10000)` with
`employees = df.get("NumberOfEmployees", pd.Series(dtype=float)).fillna(1)`.
With the column present, a row's missing value is filled with 1; with the
column absent the default is an *empty* Series, so every row ends up `NaN`. -/
def score_company_size (log1p : ℚ → ℚ) (hasCol : Bool) (r : Lead) : Option ℚ :=
  if hasCol then some (log1p (r.NumberOfEmployees.getD 1) / log1p 10000)
  else none

/-- `_score_engagement`: `clip(visits/50*0.6 + downloads/10*0.4, 0, 1)` with
per-row missing values filled with 0.  The column-absent default is the
length-one Series `pd.Series(0)` living at index 0, so when a column is
absent index alignment yields a value only at row 0 and `NaN` elsewhere. -/
def score_engagement (hasVisits hasDownloads : Bool) (i : ℕ) (r : Lead) : Option ℚ :=
  match hasVisits, hasDownloads with
  | true, true =>
      some (clipQ 0 1 (r.Website_Visits__c.getD 0 / 50 * 0.6 +
        r.Content_Downloads__c.getD 0 / 10 * 0.4))
  | true, false =>
      if i = 0 then some (clipQ 0 1 (r.Website_Visits__c.getD 0 / 50 * 0.6 + 0 / 10 * 0.4))
      else none
  | false, true =>
      if i = 0 then some (clipQ 0 1 (0 / 50 * 0.6 + r.Content_Downloads__c.getD 0 / 10 * 0.4))
      else none
  | false, false =>
      if i = 0 then some (clipQ 0 1 (0 / 50 * 0.6 + 0 / 10 * 0.4))
      else none

def target_industries : List String :=
  ["Technology", "Finance", "Healthcare", "Consulting"]

/-- `_score_industry`: 1.0 for a target industry, 0.4 otherwise (a null value
is not in the target set, hence 0.4).  Column-absent default is
`pd.Series("")`, a length-one Series at index 0: `""` scores 0.4 at row 0 and
every other row is `NaN`. -/
def score_industry (hasCol : Bool) (i : ℕ) (r : Lead) : Option ℚ :=
  if hasCol then
    some (if r.Industry.elim false (· ∈ target_industries) then 1 else 0.4)
  else if i = 0 then some 0.4 else none

/-- `_score_budget`: `clip(np.log1p(revenue)/np.log1p(1e8), 0, 1)` with
per-row missing revenue filled with 0; the column-absent default is an empty
Series, so every row is `NaN`. -/
def score_budget (log1p : ℚ → ℚ) (hasCol : Bool) (r : Lead) : Option ℚ :=
  if hasCol then
    some (clipQ 0 1 (log1p (r.AnnualRevenue.getD 0) / log1p 100000000))
  else none

/-- `_score_response_time`: `clip(1 - days/60, 0, 1)` with per-row missing
days filled with 30; column-absent default `pd.Series(30)` gives row 0 the
value for 30 days and `NaN` elsewhere. -/
def score_response_time (hasCol : Bool) (i : ℕ) (r : Lead) : Option ℚ :=
  if hasCol then
    some (clipQ 0 1 (1 - r.Days_Since_Last_Activity__c.getD 30 / 60))
  else if i = 0 then some (clipQ 0 1 (1 - 30 / 60)) else none

/-- `_score_email_activity`: `clip(opens/30, 0, 1)` with per-row missing
opens filled with 0; column-absent default `pd.Series(0)` gives row 0 the
value 0 and `NaN` elsewhere. -/
def score_email_activity (hasCol : Bool) (i : ℕ) (r : Lead) : Option ℚ :=
  if hasCol then some (clipQ 0 1 (r.Email_Opens__c.getD 0 / 30))
  else if i = 0 then some (clipQ 0 1 (0 / 30)) else none

/-- The `Lead_Score` column: weighted sum of the six sub-scores, times 100,
clipped to `[0, 100]`, rounded to one decimal.  `NaN` (`none`) in any
sub-score propagates. -/
def leadScoreValue (log1p : ℚ → ℚ) (w : LeadScoreWeights) (leads : List Lead)
    (i : ℕ) (r : Lead) : Option ℚ := do
  let cs ← score_company_size log1p (hasNumberOfEmployeesCol leads) r
  let eng ← score_engagement (hasWebsiteVisitsCol leads) (hasContentDownloadsCol leads) i r
  let ind ← score_industry (hasIndustryCol leads) i r
  let bud ← score_budget log1p (hasAnnualRevenueCol leads) r
  let rt ← score_response_time (hasDaysSinceActivityCol leads) i r
  let em ← score_email_activity (hasEmailOpensCol leads) i r
  pure (roundQ 1 (clipQ 0 100
    ((cs * w.company_size + eng * w.engagement_score + ind * w.industry_match +
      bud * w.budget_range + rt * w.response_time_days + em * w.email_opens) * 100)))

/-- `pd.cut(score, bins=[-1, 30, 60, 80, 101], labels=[...])`: right-closed
bins; a value outside `(-1, 101]` (impossible after clipping) or `NaN` maps
to `NaN`. -/
def priorityOf (s : Option ℚ) : Option String :=
  s.bind fun x =>
    if x ≤ -1 then none
    else if x ≤ 30 then some "Low"
    else if x ≤ 60 then some "Medium"
    else if x ≤ 80 then some "High"
    else if x ≤ 101 then some "Critical"
    else none

/-- Row order of `sort_values("Lead_Score", ascending=False)`: descending
score with `NaN` scores last. -/
def scoredLeadLE (a b : ScoredLead) : Bool :=
  match a.Lead_Score, b.Lead_Score with
  | some x, some y => decide (y ≤ x)
  | some _, none => true
  | none, some _ => false
  | none, none => true

/-- `LeadScorer.score_leads`. -/
def score_leads (log1p : ℚ → ℚ) (w : LeadScoreWeights) (leads : List Lead) :
    List ScoredLead :=
  if leads.isEmpty then []
  else
    sortBy scoredLeadLE <|
      (List.range leads.length).zip leads |>.map fun p =>
        let s := leadScoreValue log1p w leads p.1 p.2
        { lead := p.2, Lead_Score := s, Priority := priorityOf s }

/-- The summary dict returned by `get_score_distribution` (on a non-empty
input). -/
structure ScoreDistribution where
  total_leads : ℕ
  average_score : Option ℚ
  median_score : Option ℚ
  priority_breakdown : List (String × ℕ)
  range_0_30 : ℕ
  range_31_60 : ℕ
  range_61_80 : ℕ
  range_81_100 : ℕ
  deriving DecidableEq, Repr

/-- `LeadScorer.get_score_distribution`.  On an empty input `score_leads`
returns an empty frame with *no columns*, and `scored["Lead_Score"]` raises
`KeyError`; the raise is modelled by `none`. -/
def get_score_distribution (log1p : ℚ → ℚ) (w : LeadScoreWeights)
    (leads : List Lead) : Option ScoreDistribution :=
  let scored := score_leads log1p w leads
  if leads.isEmpty then none
  else
    let scores := scored.filterMap (·.Lead_Score)
    some
      { total_leads := scored.length
        average_score :=
          if scores.isEmpty then none else some (roundQ 1 (meanQ scores))
        median_score :=
          if scores.isEmpty then none else some (roundQ 1 (medianQ scores))
        priority_breakdown :=
          ["Low", "Medium", "High", "Critical"].map fun lvl =>
            (lvl, (scored.filter (·.Priority = some lvl)).length)
        range_0_30 := (scores.filter (· ≤ 30)).length
        range_31_60 := (scores.filter (fun x => 30 < x ∧ x ≤ 60)).length
        range_61_80 := (scores.filter (fun x => 60 < x ∧ x ≤ 80)).length
        range_81_100 := (scores.filter (80 < ·)).length }

/-!
## Churn risk (`src/analytics/churn_risk.py`)

Accounts, cases and opportunities are flat optional-field records.
`LastActivityDate` is doubly optional: the outer `none` means the key is
absent from the record (no contribution to the column), `some none` means the
key is present but null/unparseable (`pd.to_datetime(..., errors="coerce")`
yields `NaT`), and `some (some d)` is a date parsed to the integer day
number `d`.  `pd.Timestamp.now()` becomes the explicit parameter `now`.
-/

structure Account where
  Id : Option String
  Name : Option String
  Industry : Option String
  AnnualRevenue : Option ℚ
  LastActivityDate : Option (Option ℤ)
  deriving DecidableEq, Repr

structure Case where
  AccountId : Option String
  Priority : Option String
  Customer_Satisfaction__c : Option ℚ
  deriving DecidableEq, Repr

structure Opportunity where
  AccountId : Option String
  Amount : Option ℚ
  Probability : Option ℚ
  StageName : Option String
  IsClosed : Option Bool
  IsWon : Option Bool
  ForecastCategory : Option String
  Days_In_Stage__c : Option ℚ
  deriving DecidableEq, Repr

/-- A row of the frame returned by `predict_churn`: the account plus the
three derived columns. -/
structure ScoredAccount where
  account : Account
  Churn_Risk_Score : ℚ
  Churn_Risk_Level : String
  Risk_Factors : List String
  deriving DecidableEq, Repr

/-- Does a case belong to the account (`merge` on `Id = AccountId`)?  A null
key on either side never matches. -/
def caseMatches (a : Account) (c : Case) : Bool :=
  match a.Id with
  | some i => c.AccountId = some i
  | none => false

/-- `_case_risk_score` for one account row: zero when there are no cases at
all, otherwise the 50/50 blend of the clipped case count (`/10`) and clipped
escalated count (`/3`), counts joined per account (no match ⇒ 0). -/
def case_risk_score (cases : List Case) (a : Account) : ℚ :=
  if cases.isEmpty then 0
  else
    let case_count : ℚ := (cases.filter (caseMatches a)).length
    let escalated_count : ℚ :=
      (cases.filter fun c =>
        (c.Priority = some "High" ∨ c.Priority = some "Critical") ∧
          caseMatches a c).length
    clipQ 0 1 (case_count / 10) * 0.5 + clipQ 0 1 (escalated_count / 3) * 0.5

/-- `_engagement_risk_score` for one account row.  If no record in the
dataset carries `LastActivityDate` the column is absent and every row gets
the flat 0.3.  Otherwise `days_since = (now - to_datetime(value)).days`
with `NaT`/missing filled as 90, and the risk is `clip(days/90, 0, 1)` —
so a row whose value is missing or unparseable gets `90/90 = 1.0`. -/
def engagement_risk_score (accounts : List Account) (now : ℤ) (a : Account) : ℚ :=
  if accounts.any (·.LastActivityDate.isSome) then
    match a.LastActivityDate with
    | some (some d) => clipQ 0 1 ((now - d : ℤ) / 90)
    | _ => clipQ 0 1 (90 / 90)
  else 0.3

/-- `_revenue_risk_score` for one account row: flat 0.5 with no opportunities
at all, flat 0.6 with opportunities but no won ones, else `1 - 0.8` for an
account with positive closed-won value and `1.0` otherwise. -/
def revenue_risk_score (opps : List Opportunity) (a : Account) : ℚ :=
  if opps.isEmpty then 0.5
  else
    let won := opps.filter (·.IsWon = some true)
    if won.isEmpty then 0.6
    else
      let won_value : ℚ :=
        ((won.filter fun o =>
            match a.Id with
            | some i => o.AccountId = some i
            | none => false).map (·.Amount.getD 0)).sum
      if won_value > 0 then 1 - 1 * 0.8 else 1 - 0 * 0.8

/-- `_satisfaction_risk_score` for one account row: flat 0.3 with no cases or
no `Customer_Satisfaction__c` data; otherwise the account's mean CSAT over
its non-null CSAT rows (3.0 if it has none), inverted through
`clip(1 - (csat-1)/4, 0, 1)`. -/
def satisfaction_risk_score (cases : List Case) (a : Account) : ℚ :=
  if cases.isEmpty ∨ ¬ cases.any (·.Customer_Satisfaction__c.isSome) then 0.3
  else
    let mine := cases.filter fun c =>
      c.Customer_Satisfaction__c.isSome ∧ caseMatches a c
    let avg_csat : ℚ :=
      if mine.isEmpty then 3.0
      else (mine.map (·.Customer_Satisfaction__c.getD 0)).sum / mine.length
    clipQ 0 1 (1 - (avg_csat - 1) / 4)

/-- `_classify_risk`. -/
def classify_risk (th : ChurnRiskThresholds) (score : ℚ) : String :=
  if score ≥ th.high then "High"
  else if score ≥ th.medium then "Medium"
  else "Low"

/-- `_identify_risk_factors`, applied to the raw (unrounded) sub-scores. -/
def identify_risk_factors (case_risk engagement_risk revenue_risk satisfaction_risk : ℚ) :
    List String :=
  let factors :=
    (if case_risk > 0.6 then ["High support case volume or escalations"] else []) ++
    (if engagement_risk > 0.6 then ["Low engagement — no recent activity"] else []) ++
    (if revenue_risk > 0.6 then ["No recent closed-won opportunities"] else []) ++
    (if satisfaction_risk > 0.6 then ["Low customer satisfaction scores"] else [])
  if factors.isEmpty then ["No significant risk factors identified"] else factors

/-- One output row of `predict_churn`. -/
def scoreAccount (th : ChurnRiskThresholds) (now : ℤ) (accounts : List Account)
    (cases : List Case) (opps : List Opportunity) (a : Account) : ScoredAccount :=
  let cr := case_risk_score cases a
  let er := engagement_risk_score accounts now a
  let rr := revenue_risk_score opps a
  let sr := satisfaction_risk_score cases a
  let score := roundQ 3 (cr * 0.30 + er * 0.25 + rr * 0.25 + sr * 0.20)
  { account := a
    Churn_Risk_Score := score
    Churn_Risk_Level := classify_risk th score
    Risk_Factors := identify_risk_factors cr er rr sr }

/-- Row order of `sort_values("Churn_Risk_Score", ascending=False)`. -/
def scoredAccountLE (a b : ScoredAccount) : Bool :=
  decide (b.Churn_Risk_Score ≤ a.Churn_Risk_Score)

/-- `ChurnPredictor.predict_churn`. -/
def predict_churn (th : ChurnRiskThresholds) (now : ℤ) (accounts : List Account)
    (cases : List Case) (opps : List Opportunity) : List ScoredAccount :=
  if accounts.isEmpty then []
  else sortBy scoredAccountLE (accounts.map (scoreAccount th now accounts cases opps))

/-- The dict returned by `get_risk_summary`; on empty accounts only
`total_accounts` and `risk_breakdown` are present. -/
structure RiskSummary where
  total_accounts : ℕ
  risk_breakdown : List (String × ℕ)
  average_risk_score : Option ℚ
  high_risk_accounts : Option (List (Option String × Option String × ℚ))
  total_revenue_at_risk : Option ℚ
  deriving DecidableEq, Repr

/-- `get_risk_summary` result for an empty customer base:
`{"total_accounts": 0, "risk_breakdown": {}}`. -/
def emptyRiskSummary : RiskSummary :=
  { total_accounts := 0
    risk_breakdown := []
    average_risk_score := none
    high_risk_accounts := none
    total_revenue_at_risk := none }

/-- `ChurnPredictor.get_risk_summary`. -/
def get_risk_summary (th : ChurnRiskThresholds) (now : ℤ) (accounts : List Account)
    (cases : List Case) (opps : List Opportunity) : RiskSummary :=
  let df := predict_churn th now accounts cases opps
  if df.isEmpty then emptyRiskSummary
  else
    let high := df.filter (·.Churn_Risk_Level = "High")
    { total_accounts := df.length
      risk_breakdown :=
        ["Low", "Medium", "High"].map fun lvl =>
          (lvl, (df.filter (·.Churn_Risk_Level = lvl)).length)
      average_risk_score :=
        some (roundQ 3 (meanQ (df.map (·.Churn_Risk_Score))))
      high_risk_accounts :=
        some (high.map fun r => (r.account.Name, r.account.Industry, r.Churn_Risk_Score))
      total_revenue_at_risk :=
        some ((high.map (·.account.AnnualRevenue.getD 0)).sum) }

/-!
## Pipeline health (`src/analytics/pipeline_health.py`)

`analyse_pipeline` first coerces `Amount` and `Probability` to numbers
(missing/non-numeric ⇒ 0; a wholly absent column becomes the scalar 0
broadcast to every row, so `·.Amount.getD 0` is exact in all cases).  With a
non-empty frame it then accesses the `StageName`, `IsClosed` and `IsWon`
columns without a default (`df["StageName"]`, and
`df[df.get("IsClosed", False) == False]` / `df[df.get("IsWon", False) ==
True]`, where a column-absent scalar default makes the row indexer a scalar
and raises); a missing column therefore raises `KeyError`, modelled by
`Except.error`.  A row whose `IsClosed` (resp. `IsWon`) is null is neither
open nor closed (resp. not won): `NaN == False` is `False`.
-/

/-- One entry of `stage_summary` / `get_stage_funnel`. -/
structure StageEntry where
  stage : String
  count : ℕ
  total_value : ℚ
  avg_value : ℚ
  weighted_value : ℚ
  deriving DecidableEq, Repr

/-- The `velocity_metrics` dict.  `avg_days_in_current_stage` and
`median_days_in_stage` are `NaN` (here `none`) when the
`Days_In_Stage__c` column is absent: the fallback `pd.Series(dtype=float)`
is empty and its mean/median are `NaN`. -/
structure VelocityMetrics where
  avg_days_in_current_stage : Option ℚ
  median_days_in_stage : Option ℚ
  open_deals : ℕ
  open_pipeline_value : ℚ
  closed_won_count : ℕ
  closed_won_value : ℚ
  avg_deal_size : ℚ
  deriving DecidableEq, Repr

/-- The `forecast` dict. -/
structure ForecastResult where
  best_case : ℚ
  commit : ℚ
  pipeline : ℚ
  total_weighted : ℚ
  deriving DecidableEq, Repr

/-- The `health_score.breakdown` dict (rounded sub-scores). -/
structure HealthBreakdown where
  coverage : ℚ
  distribution : ℚ
  win_rate : ℚ
  velocity : ℚ
  deriving DecidableEq, Repr

/-- The `health_score` dict; on empty input the breakdown is the empty
dict. -/
structure HealthScore where
  score : ℚ
  rating : String
  breakdown : Option HealthBreakdown
  deriving DecidableEq, Repr

/-- A `risk_indicators` entry (type/severity plus the numeric payload; the
formatted message string is presentation only). -/
structure RiskIndicator where
  riskType : String
  severity : String
  count : Option ℕ
  value : Option ℚ
  deriving DecidableEq, Repr

/-- The full `analyse_pipeline` result; `velocity_metrics` and `forecast`
are `none` (empty dicts) in the empty-input result. -/
structure PipelineResult where
  stage_summary : List StageEntry
  velocity_metrics : Option VelocityMetrics
  forecast : Option ForecastResult
  health_score : HealthScore
  risk_indicators : List RiskIndicator
  recommendations : List String
  deriving DecidableEq, Repr

/-- `_empty_result`. -/
def pipelineEmptyResult : PipelineResult :=
  { stage_summary := []
    velocity_metrics := none
    forecast := none
    health_score := { score := 0, rating := "No Data", breakdown := none }
    risk_indicators := []
    recommendations := ["No opportunity data available for analysis."] }

def oppAmount (o : Opportunity) : ℚ := o.Amount.getD 0

def oppProbability (o : Opportunity) : ℚ := o.Probability.getD 0

/-- The rows of `df[df.get("IsClosed", False) == False]` (open deals). -/
def openDeals (opps : List Opportunity) : List Opportunity :=
  opps.filter (·.IsClosed = some false)

/-- The rows of `df[df.get("IsClosed", False) == True]` (closed deals). -/
def closedDeals (opps : List Opportunity) : List Opportunity :=
  opps.filter (·.IsClosed = some true)

/-- The rows of `df[df.get("IsWon", False) == True]` (closed-won deals). -/
def wonDeals (opps : List Opportunity) : List Opportunity :=
  opps.filter (·.IsWon = some true)

/-- `_stage_summary` (and `get_stage_funnel` plus the weighted value): one
entry per configured stage, aggregating the rows whose `StageName` equals
that stage. -/
def stage_summary (stages : List String) (opps : List Opportunity) : List StageEntry :=
  stages.map fun stage =>
    let rows := opps.filter (·.StageName = some stage)
    { stage := stage
      count := rows.length
      total_value := (rows.map oppAmount).sum
      avg_value :=
        if rows.length > 0 then (rows.map oppAmount).sum / rows.length else 0
      weighted_value := (rows.map fun o => oppAmount o * oppProbability o / 100).sum }

/-- `_velocity_metrics`. -/
def velocity_metrics (opps : List Opportunity) : VelocityMetrics :=
  let hasDays := opps.any (·.Days_In_Stage__c.isSome)
  let days := opps.map (·.Days_In_Stage__c.getD 0)
  let od := openDeals opps
  let cw := wonDeals opps
  { avg_days_in_current_stage := if hasDays then some (meanQ days) else none
    median_days_in_stage := if hasDays then some (medianQ days) else none
    open_deals := od.length
    open_pipeline_value := (od.map oppAmount).sum
    closed_won_count := cw.length
    closed_won_value := (cw.map oppAmount).sum
    avg_deal_size :=
      if cw.length > 0 then (cw.map oppAmount).sum / cw.length else 0 }

/-- The effective forecast category of an open row:
`open_df.get("ForecastCategory", pd.Series("Pipeline", index=open_df.index))`
falls back to `"Pipeline"` only when no record of the whole frame carries the
field; otherwise a row's own (possibly null) value is used. -/
def forecastCategoryOf (hasForecastCol : Bool) (o : Opportunity) : Option String :=
  if hasForecastCol then o.ForecastCategory else some "Pipeline"

/-- `_forecast`. -/
def forecast (opps : List Opportunity) : ForecastResult :=
  let od := openDeals opps
  if od.isEmpty then
    { best_case := 0, commit := 0, pipeline := 0, total_weighted := 0 }
  else
    let hasFC := opps.any (·.ForecastCategory.isSome)
    let bucket := fun (c : String) =>
      ((od.filter (forecastCategoryOf hasFC · = some c)).map oppAmount).sum
    { best_case := bucket "Best Case"
      commit := bucket "Commit"
      pipeline := bucket "Pipeline"
      total_weighted := (od.map fun o => oppAmount o * oppProbability o / 100).sum }

/-- The four unrounded 25-point components of `_calculate_health_score`. -/
def healthComponents (opps : List Opportunity) : ℚ × ℚ × ℚ × ℚ :=
  let open_value := ((openDeals opps).map oppAmount).sum
  let coverage := min (open_value / 500000) 1.0 * 25
  let staged := opps.filter (·.StageName.isSome)
  let late := opps.filter fun o =>
    o.StageName = some "Proposal" ∨ o.StageName = some "Negotiation" ∨
      o.StageName = some "Closed Won"
  let late_ratio : ℚ := (late.length : ℚ) / staged.length
  let distribution := late_ratio * 25
  let closed := closedDeals opps
  let win_rate : ℚ :=
    if closed.length > 0 then
      ((closed.filter (·.IsWon = some true)).length : ℚ) / closed.length
    else 0.5
  let win_score := win_rate * 25
  let avg_days : ℚ :=
    if opps.any (·.Days_In_Stage__c.isSome) then
      meanQ (opps.map (·.Days_In_Stage__c.getD 30))
    else 30
  let velocity_score := max 0 (1 - avg_days / 60) * 25
  (coverage, distribution, win_score, velocity_score)

/-- `_calculate_health_score` on a non-empty frame. -/
def calculate_health_score (opps : List Opportunity) : HealthScore :=
  let c := healthComponents opps
  let total := roundQ 1 (c.1 + c.2.1 + c.2.2.1 + c.2.2.2)
  { score := total
    rating :=
      if total ≥ 75 then "Excellent"
      else if total ≥ 55 then "Good"
      else if total ≥ 35 then "Fair"
      else "Poor"
    breakdown := some
      { coverage := roundQ 1 c.1
        distribution := roundQ 1 c.2.1
        win_rate := roundQ 1 c.2.2.1
        velocity := roundQ 1 c.2.2.2 } }

/-- Maximum of a list of amounts (Python `Series.max` on a non-empty
column). -/
def listMaxQ : List ℚ → ℚ
  | [] => 0
  | x :: xs => xs.foldl max x

/-- `_identify_risks`. -/
def identify_risks (opps : List Opportunity) : List RiskIndicator :=
  let od := openDeals opps
  let stalled := od.filter (fun o => o.Days_In_Stage__c.getD 0 > 30)
  let stalledRisks : List RiskIndicator :=
    if stalled.length > 0 then
      [{ riskType := "Stalled Deals", severity := "High",
         count := some stalled.length, value := some ((stalled.map oppAmount).sum) }]
    else []
  let concRisks : List RiskIndicator :=
    if od.length > 0 ∧ (od.map oppAmount).sum > 0 ∧
        listMaxQ (od.map oppAmount) / (od.map oppAmount).sum > 0.4 then
      [{ riskType := "Concentration Risk", severity := "Medium",
         count := none, value := none }]
    else []
  let early := od.filter fun o =>
    o.StageName = some "Prospecting" ∨ o.StageName = some "Qualification"
  let thinRisks : List RiskIndicator :=
    if early.length < 5 then
      [{ riskType := "Thin Top of Funnel", severity := "Medium",
         count := some early.length, value := none }]
    else []
  stalledRisks ++ concRisks ++ thinRisks

/-- `_generate_recommendations`. -/
def generate_recommendations (opps : List Opportunity) : List String :=
  let risks := identify_risks opps
  let recs := risks.map fun r =>
    if r.riskType = "Stalled Deals" then
      "Review " ++ toString (r.count.getD 0) ++
        " stalled deals — consider re-engagement campaigns or pipeline clean-up."
    else if r.riskType = "Concentration Risk" then
      "Diversify pipeline — high dependency on a single large deal increases forecast risk."
    else
      "Increase prospecting activity — the early-stage pipeline is thin and will impact future quarters."
  let health := calculate_health_score opps
  if (health.breakdown.map (·.win_rate)).getD 0 < 10 then
    recs ++ ["Win rate is below target — review qualification criteria and sales process effectiveness."]
  else recs

/-- `PipelineAnalyser.analyse_pipeline`.  Empty input short-circuits to
`_empty_result`; a non-empty frame missing any of the `StageName`,
`IsClosed` or `IsWon` columns raises `KeyError`. -/
def analyse_pipeline (stages : List String) (opps : List Opportunity) :
    Except String PipelineResult :=
  if opps.isEmpty then .ok pipelineEmptyResult
  else if ¬ (opps.any (·.StageName.isSome) ∧ opps.any (·.IsClosed.isSome) ∧
      opps.any (·.IsWon.isSome)) then
    .error "KeyError"
  else
    .ok
      { stage_summary := stage_summary stages opps
        velocity_metrics := some (velocity_metrics opps)
        forecast := some (forecast opps)
        health_score := calculate_health_score opps
        risk_indicators := identify_risks opps
        recommendations := generate_recommendations opps }

/-!
## Structural lemmas
-/

/-- Every row of `score_leads` output is built from an indexed input lead. -/
theorem mem_score_leads {log1p : ℚ → ℚ} {w : LeadScoreWeights} {leads : List Lead}
    {r : ScoredLead} (h : r ∈ score_leads log1p w leads) :
    ∃ p ∈ (List.range leads.length).zip leads,
      r = { lead := p.2, Lead_Score := leadScoreValue log1p w leads p.1 p.2,
            Priority := priorityOf (leadScoreValue log1p w leads p.1 p.2) } := by
  unfold score_leads at h
  split at h
  · simp at h
  · rw [mem_sortBy, List.mem_map] at h
    obtain ⟨p, hp, hr⟩ := h
    exact ⟨p, hp, hr.symm⟩

/-- Every row of `predict_churn` output is `scoreAccount` of an input
account. -/
theorem mem_predict_churn {th : ChurnRiskThresholds} {now : ℤ}
    {accounts : List Account} {cases : List Case} {opps : List Opportunity}
    {row : ScoredAccount} (h : row ∈ predict_churn th now accounts cases opps) :
    ∃ a ∈ accounts, row = scoreAccount th now accounts cases opps a := by
  unfold predict_churn at h
  split at h
  · simp at h
  · rw [mem_sortBy, List.mem_map] at h
    obtain ⟨a, ha, hr⟩ := h
    exact ⟨a, ha, hr.symm⟩

/-- A successful `analyse_pipeline` on a non-empty input is the main branch,
and the three accessed columns are present. -/
theorem analyse_pipeline_ok {stages : List String} {opps : List Opportunity}
    {r : PipelineResult} (hok : analyse_pipeline stages opps = .ok r)
    (hne : opps ≠ []) :
    opps.any (·.StageName.isSome) = true ∧
    opps.any (·.IsClosed.isSome) = true ∧ opps.any (·.IsWon.isSome) = true ∧
    r = { stage_summary := stage_summary stages opps
          velocity_metrics := some (velocity_metrics opps)
          forecast := some (forecast opps)
          health_score := calculate_health_score opps
          risk_indicators := identify_risks opps
          recommendations := generate_recommendations opps } := by
  unfold analyse_pipeline at hok
  rw [if_neg (by simpa using hne)] at hok
  split at hok
  · cases hok
  · rename_i hcols
    push_neg at hcols
    obtain ⟨h1, h2, h3⟩ := hcols
    cases hok
    exact ⟨h1, h2, h3, rfl⟩

/-- Any value produced by the `Lead_Score` pipeline lies in `[0, 100]`:
it is a clipped value rounded to one decimal. -/
theorem leadScoreValue_bounds {log1p : ℚ → ℚ} {w : LeadScoreWeights}
    {leads : List Lead} {i : ℕ} {r : Lead} {s : ℚ}
    (h : leadScoreValue log1p w leads i r = some s) : 0 ≤ s ∧ s ≤ 100 := by
  unfold leadScoreValue at h
  simp only [bind, Option.bind_eq_some, Option.pure_def, Option.some_inj] at h
  obtain ⟨cs, _, eng, _, ind, _, bud, _, rt, _, em, _, hs⟩ := h
  subst hs
  constructor
  · exact roundQ_nonneg le_clipQ
  · have h1 : clipQ 0 100
        ((cs * w.company_size + eng * w.engagement_score + ind * w.industry_match +
          bud * w.budget_range + rt * w.response_time_days + em * w.email_opens) * 100) *
        10 ^ 1 ≤ ((1000 : ℤ) : ℚ) := by
      have := @clipQ_le 0 100
        ((cs * w.company_size + eng * w.engagement_score + ind * w.industry_match +
          bud * w.budget_range + rt * w.response_time_days + em * w.email_opens) * 100)
        (by norm_num)
      push_cast
      nlinarith
    have := roundQ_le h1
    calc roundQ 1 _ ≤ ((1000 : ℤ) : ℚ) / 10 ^ 1 := this
    _ = 100 := by norm_num

/-- The four `pd.cut` priority bins on a score in `[0, 100]`. -/
theorem priorityOf_spec {s : ℚ} (h0 : 0 ≤ s) (h100 : s ≤ 100) :
    (priorityOf (some s) = some "Low" ↔ s ≤ 30) ∧
    (priorityOf (some s) = some "Medium" ↔ 30 < s ∧ s ≤ 60) ∧
    (priorityOf (some s) = some "High" ↔ 60 < s ∧ s ≤ 80) ∧
    (priorityOf (some s) = some "Critical" ↔ 80 < s) := by
  unfold priorityOf
  simp only [Option.some_bind]
  split_ifs with h1 h2 h3 h4 h5 <;>
    refine ⟨?_, ?_, ?_, ?_⟩ <;> simp_all <;> first | linarith | (intro h; linarith)

/-!
## Claims
-/

/-- **C1.** On empty input collections, `score_leads`, `analyse_pipeline`,
`predict_churn` and `get_risk_summary` all return their documented
empty/zeroed structures without failing — but `get_score_distribution`
does not: `score_leads([])` is an empty frame with no columns, so
`scored["Lead_Score"]` raises `KeyError` (modelled by `none`), contradicting
the never-raise part of the claim. -/
theorem C1_empty_input_behaviour (log1p : ℚ → ℚ) (w : LeadScoreWeights)
    (stages : List String) (th : ChurnRiskThresholds) (now : ℤ)
    (cases : List Case) (opps : List Opportunity) :
    score_leads log1p w [] = [] ∧
    get_score_distribution log1p w [] = none ∧
    analyse_pipeline stages [] = .ok pipelineEmptyResult ∧
    predict_churn th now [] cases opps = [] ∧
    get_risk_summary th now [] cases opps = emptyRiskSummary :=
  ⟨rfl, rfl, rfl, rfl, rfl⟩

def c2account : Account :=
  { Id := some "A", Name := none, Industry := none, AnnualRevenue := none,
    LastActivityDate := some (some 0) }

/-- **C2, counterexample.** `predict_churn` is *not* independent of the
wall-clock time: the same single-account input (last activity at day 0)
scores 0.268/Low when evaluated at day 30 but 0.435/Medium at day 100,
because `_engagement_risk_score` measures days since activity against
`pd.Timestamp.now()`. -/
theorem C2_counterexample :
    (predict_churn churn_risk_thresholds 30 [c2account] [] []).map
        (·.Churn_Risk_Score) ≠
      (predict_churn churn_risk_thresholds 100 [c2account] [] []).map
        (·.Churn_Risk_Score) := by
  have h30 : predict_churn churn_risk_thresholds 30 [c2account] [] [] =
      [{ account := c2account, Churn_Risk_Score := 0.268,
         Churn_Risk_Level := "Low",
         Risk_Factors := ["No significant risk factors identified"] }] := by
    simp only [predict_churn, List.isEmpty_cons, List.map_cons, List.map_nil,
      sortBy, insertBy, scoreAccount, case_risk_score, engagement_risk_score,
      revenue_risk_score, satisfaction_risk_score, classify_risk,
      identify_risk_factors, c2account, churn_risk_thresholds]
    norm_num [clipQ, roundQ, roundHalfEven]
  have h100 : predict_churn churn_risk_thresholds 100 [c2account] [] [] =
      [{ account := c2account, Churn_Risk_Score := 0.435,
         Churn_Risk_Level := "Medium",
         Risk_Factors := ["Low engagement — no recent activity"] }] := by
    simp only [predict_churn, List.isEmpty_cons, List.map_cons, List.map_nil,
      sortBy, insertBy, scoreAccount, case_risk_score, engagement_risk_score,
      revenue_risk_score, satisfaction_risk_score, classify_risk,
      identify_risk_factors, c2account, churn_risk_thresholds]
    norm_num [clipQ, roundQ, roundHalfEven]
  rw [h30, h100]
  norm_num

/-- **C2 (amended).** Each scoring run is deterministic in its inputs plus,
for the churn predictor, the evaluation date.  Whenever no account record
carries a *parseable* `LastActivityDate` — the field absent, null or
unparseable on every record — `predict_churn` does not depend on the
current time at all: with the column absent every row gets the flat 0.3
engagement risk, and with the column present a null/unparseable row is
filled as 90 days, giving the constant `90/90 = 1.0`. -/
theorem C2_time_independent_without_activity_dates (th : ChurnRiskThresholds)
    (t1 t2 : ℤ) (accounts : List Account) (cases : List Case)
    (opps : List Opportunity)
    (h : ∀ a ∈ accounts,
      a.LastActivityDate = none ∨ a.LastActivityDate = some none) :
    predict_churn th t1 accounts cases opps =
      predict_churn th t2 accounts cases opps := by
  unfold predict_churn
  split
  · rfl
  · congr 1
    apply List.map_congr_left
    intro a ha
    have he : engagement_risk_score accounts t1 a =
        engagement_risk_score accounts t2 a := by
      unfold engagement_risk_score
      split
      · rcases h a ha with h' | h' <;> rw [h']
      · rfl
    unfold scoreAccount
    rw [he]

def c2accountB : Account :=
  { Id := some "B", Name := none, Industry := none, AnnualRevenue := none,
    LastActivityDate := none }

def c2accountC : Account :=
  { Id := some "C", Name := none, Industry := none, AnnualRevenue := none,
    LastActivityDate := some none }

theorem C2_witness :
    predict_churn churn_risk_thresholds 0 [c2accountB, c2accountC] [] [] =
      predict_churn churn_risk_thresholds 500 [c2accountB, c2accountC] [] [] :=
  C2_time_independent_without_activity_dates churn_risk_thresholds 0 500
    [c2accountB, c2accountC] [] []
    (by
      intro a ha
      rw [List.mem_cons, List.mem_singleton] at ha
      rcases ha with ha | ha <;> rw [ha]
      · exact Or.inl rfl
      · exact Or.inr rfl)

/-- **C3.** Every scored lead's `Priority` is `pd.cut` of its rounded
`Lead_Score`, whose bins on the clipped range `[0, 100]` are exactly
`[0,30] → Low`, `(30,60] → Medium`, `(60,80] → High`, `(80,100] → Critical`
(so a score of exactly 30 is Low and exactly 60 is Medium). -/
theorem C3_priority_bins (log1p : ℚ → ℚ) (w : LeadScoreWeights)
    (leads : List Lead) (r : ScoredLead) (hr : r ∈ score_leads log1p w leads)
    (s : ℚ) (hs : r.Lead_Score = some s) :
    (0 ≤ s ∧ s ≤ 100) ∧
    r.Priority = priorityOf r.Lead_Score ∧
    (r.Priority = some "Low" ↔ s ≤ 30) ∧
    (r.Priority = some "Medium" ↔ 30 < s ∧ s ≤ 60) ∧
    (r.Priority = some "High" ↔ 60 < s ∧ s ≤ 80) ∧
    (r.Priority = some "Critical" ↔ 80 < s) := by
  obtain ⟨p, _, rfl⟩ := mem_score_leads hr
  dsimp only at hs ⊢
  obtain ⟨h0, h100⟩ := leadScoreValue_bounds hs
  have hspec := priorityOf_spec h0 h100
  rw [hs]
  exact ⟨⟨h0, h100⟩, rfl, hspec.1, hspec.2.1, hspec.2.2.1, hspec.2.2.2⟩

def c3lead : Lead :=
  { NumberOfEmployees := some 1, AnnualRevenue := some 0,
    Industry := some "Technology", Website_Visits__c := some 0,
    Content_Downloads__c := some 0, Email_Opens__c := some 0,
    Days_Since_Last_Activity__c := some 60 }

def c3row : ScoredLead :=
  { lead := c3lead, Lead_Score := some 15, Priority := some "Low" }

theorem C3_witness :
    ((0 ≤ (15 : ℚ) ∧ (15 : ℚ) ≤ 100) ∧
      c3row.Priority = priorityOf c3row.Lead_Score ∧
      (c3row.Priority = some "Low" ↔ (15 : ℚ) ≤ 30) ∧
      (c3row.Priority = some "Medium" ↔ 30 < (15 : ℚ) ∧ (15 : ℚ) ≤ 60) ∧
      (c3row.Priority = some "High" ↔ 60 < (15 : ℚ) ∧ (15 : ℚ) ≤ 80) ∧
      (c3row.Priority = some "Critical" ↔ 80 < (15 : ℚ))) :=
  C3_priority_bins (fun _ => 0) lead_score_weights [c3lead] c3row
    (by
      have hval : leadScoreValue (fun _ => 0) lead_score_weights [c3lead] 0 c3lead =
          some 15 := by
        norm_num [leadScoreValue, score_company_size, score_engagement,
          score_industry, score_budget, score_response_time,
          score_email_activity, hasNumberOfEmployeesCol, hasAnnualRevenueCol,
          hasIndustryCol, hasWebsiteVisitsCol, hasContentDownloadsCol,
          hasEmailOpensCol, hasDaysSinceActivityCol, c3lead, clipQ, roundQ,
          roundHalfEven, lead_score_weights, target_industries, bind]
      have hzip : (List.range ([c3lead] : List Lead).length).zip [c3lead] =
          [(0, c3lead)] := rfl
      unfold score_leads
      rw [if_neg (by simp), hzip]
      simp only [List.map_cons, List.map_nil, sortBy, insertBy,
        List.mem_singleton, hval, c3row]
      norm_num [priorityOf])
    15 rfl

/-- **C4, counterexample.** On the empty opportunity list `analyse_pipeline`
returns `_empty_result`, whose `stage_summary` is the empty list — not the
7 configured stages the claim asserts for *every* input. -/
theorem C4_counterexample :
    analyse_pipeline pipeline_health_stages [] = .ok pipelineEmptyResult ∧
    pipelineEmptyResult.stage_summary = [] ∧
    pipeline_health_stages.length = 7 :=
  ⟨rfl, rfl, rfl⟩

/-- **C4 (amended).** For every *non-empty* input on which
`analyse_pipeline` succeeds, `stage_summary` has exactly the 7 configured
stages, in configured order, each entry aggregating exactly the records of
its stage (zero-record stages included); for the empty input the summary is
empty. -/
theorem C4_stage_summary (opps : List Opportunity) (r : PipelineResult)
    (hok : analyse_pipeline pipeline_health_stages opps = .ok r) :
    (opps = [] → r.stage_summary = []) ∧
    (opps ≠ [] →
      r.stage_summary.map (·.stage) = pipeline_health_stages ∧
      r.stage_summary.length = 7 ∧
      ∀ e ∈ r.stage_summary,
        e.count = (opps.filter (·.StageName = some e.stage)).length ∧
        e.total_value =
          ((opps.filter (·.StageName = some e.stage)).map oppAmount).sum ∧
        e.avg_value = (if 0 < e.count then e.total_value / e.count else 0) ∧
        e.weighted_value =
          ((opps.filter (·.StageName = some e.stage)).map
            (fun o => oppAmount o * oppProbability o / 100)).sum) := by
  constructor
  · intro h
    subst h
    simp only [analyse_pipeline, List.isEmpty_nil, if_true] at hok
    cases hok
    rfl
  · intro hne
    obtain ⟨_, _, _, rfl⟩ := analyse_pipeline_ok hok hne
    dsimp only
    refine ⟨?_, ?_, ?_⟩
    · unfold stage_summary
      rw [List.map_map]
      exact List.map_id'' (fun _ => rfl) _
    · unfold stage_summary
      rw [List.length_map]
      rfl
    · intro e he
      unfold stage_summary at he
      rw [List.mem_map] at he
      obtain ⟨s, _, rfl⟩ := he
      exact ⟨rfl, rfl, rfl, rfl⟩

def c4opp : Opportunity :=
  { AccountId := none, Amount := some 100, Probability := some 50,
    StageName := some "Prospecting", IsClosed := some false,
    IsWon := some false, ForecastCategory := some "Pipeline",
    Days_In_Stage__c := some 10 }

def c4opps : List Opportunity := [c4opp]

def c4r : PipelineResult :=
  (analyse_pipeline pipeline_health_stages c4opps).toOption.getD
    pipelineEmptyResult

theorem C4_witness :
    c4r.stage_summary.map (·.stage) = pipeline_health_stages ∧
    c4r.stage_summary.length = 7 :=
  ⟨(((C4_stage_summary c4opps c4r rfl).2 (by simp [c4opps])).1),
   (((C4_stage_summary c4opps c4r rfl).2 (by simp [c4opps])).2.1)⟩

def c5accA : Account :=
  { Id := some "A", Name := none, Industry := none, AnnualRevenue := none,
    LastActivityDate := some (some 0) }

def c5case : Case :=
  { AccountId := some "B", Priority := none,
    Customer_Satisfaction__c := some 5 }

/-- **C5, counterexample.** An account with zero *matching* cases, zero
opportunities and activity 100 days back does *not* always get satisfaction
risk 0.3 and composite 0.435: when some other account's case carries a
`Customer_Satisfaction__c` value, the CSAT column exists, the account's
missing mean is filled with the neutral 3.0, and its satisfaction risk is
0.5, giving composite 0.475 (still Medium). -/
theorem C5_counterexample :
    (predict_churn churn_risk_thresholds 100 [c5accA] [c5case] []).map
        (·.Churn_Risk_Score) = [0.475] ∧
    satisfaction_risk_score [c5case] c5accA = 0.5 ∧
    (0.475 : ℚ) ≠ 0.435 ∧ (0.5 : ℚ) ≠ 0.3 := by
  have hsat : satisfaction_risk_score [c5case] c5accA = 0.5 := by
    simp [satisfaction_risk_score, c5case, c5accA, caseMatches, clipQ]
    norm_num
  have hcr : case_risk_score [c5case] c5accA = 0 := by
    simp [case_risk_score, c5case, c5accA, caseMatches, clipQ]
  have her : engagement_risk_score [c5accA] 100 c5accA = 1 := by
    simp only [engagement_risk_score, c5accA]
    rw [if_pos (by simp)]
    rw [clipQ_eq_one (by push_cast; norm_num)]
  have hrr : revenue_risk_score [] c5accA = 0.5 := rfl
  refine ⟨?_, hsat, by norm_num, by norm_num⟩
  simp only [predict_churn, List.isEmpty_cons, List.map_cons, List.map_nil,
    sortBy, insertBy, scoreAccount]
  rw [hsat, hcr, her, hrr]
  norm_num [roundQ, roundHalfEven]

/-- **C5 (amended).** The scenario holds once the case data carries no
customer-satisfaction signal (in particular when there are no cases at
all): for an output row whose account has zero matching cases, with no
opportunities in the dataset, no `Customer_Satisfaction__c` values among
the cases, and a parsed `LastActivityDate` exactly 100 days before `now`,
the four sub-scores are 0, 1.0, 0.5 and 0.3, the composite rounds to
0.435 and the level is Medium. -/
theorem C5_scenario (now d : ℤ) (accounts : List Account) (cases : List Case)
    (row : ScoredAccount)
    (hrow : row ∈ predict_churn churn_risk_thresholds now accounts cases [])
    (hcase : ∀ c ∈ cases, caseMatches row.account c = false)
    (hcsat : cases.isEmpty ∨ ¬ cases.any (·.Customer_Satisfaction__c.isSome))
    (hdate : row.account.LastActivityDate = some (some d))
    (hdays : now - d = 100) :
    case_risk_score cases row.account = 0 ∧
    engagement_risk_score accounts now row.account = 1 ∧
    revenue_risk_score [] row.account = 0.5 ∧
    satisfaction_risk_score cases row.account = 0.3 ∧
    row.Churn_Risk_Score = 0.435 ∧
    row.Churn_Risk_Level = "Medium" := by
  obtain ⟨a, haacc, rfl⟩ := mem_predict_churn hrow
  dsimp only [scoreAccount] at hcase hdate ⊢
  have hcr : case_risk_score cases a = 0 := by
    unfold case_risk_score
    split
    · rfl
    · have h1 : cases.filter (caseMatches a) = [] :=
        List.filter_eq_nil_iff.mpr fun c hc => by simp [hcase c hc]
      have h2 : (cases.filter fun c =>
          (c.Priority = some "High" ∨ c.Priority = some "Critical") ∧
            caseMatches a c) = [] :=
        List.filter_eq_nil_iff.mpr fun c hc => by simp [hcase c hc]
      rw [h1, h2]
      norm_num [clipQ]
  have her : engagement_risk_score accounts now a = 1 := by
    unfold engagement_risk_score
    rw [if_pos]
    · rw [hdate]
      dsimp only
      rw [hdays]
      rw [clipQ_eq_one (by push_cast; norm_num)]
    · exact List.any_eq_true.mpr ⟨a, haacc, by rw [hdate]; rfl⟩
  have hrr : revenue_risk_score [] a = 0.5 := rfl
  have hsr : satisfaction_risk_score cases a = 0.3 := by
    unfold satisfaction_risk_score
    rw [if_pos]
    rcases hcsat with h | h
    · exact Or.inl h
    · exact Or.inr h
  refine ⟨hcr, her, hrr, hsr, ?_, ?_⟩
  · rw [hcr, her, hrr, hsr]
    norm_num [roundQ, roundHalfEven]
  · rw [hcr, her, hrr, hsr]
    norm_num [roundQ, roundHalfEven, classify_risk, churn_risk_thresholds]

def c5waccount : Account :=
  { Id := some "W", Name := none, Industry := none, AnnualRevenue := none,
    LastActivityDate := some (some 0) }

def c5wrow : ScoredAccount :=
  { account := c5waccount, Churn_Risk_Score := 0.435,
    Churn_Risk_Level := "Medium",
    Risk_Factors := ["Low engagement — no recent activity"] }

theorem C5_witness :
    case_risk_score [] c5wrow.account = 0 ∧
    engagement_risk_score [c5waccount] 100 c5wrow.account = 1 ∧
    revenue_risk_score [] c5wrow.account = 0.5 ∧
    satisfaction_risk_score [] c5wrow.account = 0.3 ∧
    c5wrow.Churn_Risk_Score = 0.435 ∧
    c5wrow.Churn_Risk_Level = "Medium" :=
  C5_scenario 100 0 [c5waccount] [] c5wrow
    (by
      have : predict_churn churn_risk_thresholds 100 [c5waccount] [] [] =
          [c5wrow] := by
        simp only [predict_churn, List.isEmpty_cons, List.map_cons,
          List.map_nil, sortBy, insertBy, scoreAccount, case_risk_score,
          engagement_risk_score, revenue_risk_score, satisfaction_risk_score,
          classify_risk, identify_risk_factors, c5waccount, c5wrow,
          churn_risk_thresholds]
        norm_num [clipQ, roundQ, roundHalfEven]
      rw [this]
      exact List.mem_singleton.mpr rfl)
    (by intro c hc; simp at hc)
    (Or.inl rfl) rfl (by norm_num)

/-- Each of the four health-score components lies in `[0, 25]`, given the
data-model invariants (`Amount ≥ 0`, `Days_In_Stage__c ≥ 0`) and a present
`StageName` column. -/
theorem healthComponents_bounds (opps : List Opportunity)
    (hstage : opps.any (·.StageName.isSome) = true)
    (hamt : ∀ o ∈ opps, 0 ≤ oppAmount o)
    (hdays : ∀ o ∈ opps, ∀ dd, o.Days_In_Stage__c = some dd → 0 ≤ dd) :
    (0 ≤ (healthComponents opps).1 ∧ (healthComponents opps).1 ≤ 25) ∧
    (0 ≤ (healthComponents opps).2.1 ∧ (healthComponents opps).2.1 ≤ 25) ∧
    (0 ≤ (healthComponents opps).2.2.1 ∧ (healthComponents opps).2.2.1 ≤ 25) ∧
    (0 ≤ (healthComponents opps).2.2.2 ∧ (healthComponents opps).2.2.2 ≤ 25) := by
  have hov : 0 ≤ ((openDeals opps).map oppAmount).sum := by
    apply List.sum_nonneg
    intro x hx
    rw [List.mem_map] at hx
    obtain ⟨o, ho, rfl⟩ := hx
    exact hamt o (List.mem_of_mem_filter ho)
  simp only [healthComponents]
  refine ⟨⟨?_, ?_⟩, ⟨?_, ?_⟩, ⟨?_, ?_⟩, ⟨?_, ?_⟩⟩
  · have h1 : (0:ℚ) ≤ min (((openDeals opps).map oppAmount).sum / 500000) 1.0 :=
      le_min (by positivity) (by norm_num)
    linarith
  · have h1 : min (((openDeals opps).map oppAmount).sum / 500000) 1.0 ≤ 1 := by
      have := min_le_right (((openDeals opps).map oppAmount).sum / 500000) 1.0
      linarith [this]
    linarith
  · positivity
  · have hmono : ((opps.filter fun o =>
        o.StageName = some "Proposal" ∨ o.StageName = some "Negotiation" ∨
          o.StageName = some "Closed Won").length : ℚ) ≤
        ((opps.filter (·.StageName.isSome)).length : ℚ) := by
      have := length_filter_mono (p := fun o =>
          decide (o.StageName = some "Proposal" ∨ o.StageName = some "Negotiation" ∨
            o.StageName = some "Closed Won"))
        (q := (·.StageName.isSome)) opps ?_
      · exact_mod_cast this
      · intro o ho
        simp only [decide_eq_true_eq] at ho
        rcases ho with h | h | h <;> simp [h]
    have hpos : (0:ℚ) < ((opps.filter (·.StageName.isSome)).length : ℚ) := by
      rw [List.any_eq_true] at hstage
      obtain ⟨o, ho, hso⟩ := hstage
      have : o ∈ opps.filter (·.StageName.isSome) := List.mem_filter.mpr ⟨ho, hso⟩
      have : 0 < (opps.filter (·.StageName.isSome)).length :=
        List.length_pos.mpr (List.ne_nil_of_mem this)
      exact_mod_cast this
    have hratio : ((opps.filter fun o =>
        o.StageName = some "Proposal" ∨ o.StageName = some "Negotiation" ∨
          o.StageName = some "Closed Won").length : ℚ) /
        ((opps.filter (·.StageName.isSome)).length : ℚ) ≤ 1 :=
      (div_le_one hpos).mpr hmono
    linarith
  · split
    · rename_i hcl
      have h1 : (0:ℚ) ≤ (((closedDeals opps).filter (·.IsWon = some true)).length : ℚ) /
          ((closedDeals opps).length : ℚ) := by positivity
      linarith
    · norm_num
  · split
    · rename_i hcl
      have hle : ((closedDeals opps).filter (·.IsWon = some true)).length ≤
          (closedDeals opps).length := List.length_filter_le _ _
      have hpos : (0:ℚ) < ((closedDeals opps).length : ℚ) := by exact_mod_cast hcl
      have : (((closedDeals opps).filter (·.IsWon = some true)).length : ℚ) /
          ((closedDeals opps).length : ℚ) ≤ 1 :=
        (div_le_one hpos).mpr (by exact_mod_cast hle)
      linarith
    · norm_num
  · have : (0:ℚ) ≤ max 0 (1 - (if opps.any (·.Days_In_Stage__c.isSome) then
        meanQ (opps.map (·.Days_In_Stage__c.getD 30)) else 30) / 60) :=
      le_max_left _ _
    linarith
  · have havg : 0 ≤ (if opps.any (·.Days_In_Stage__c.isSome) then
        meanQ (opps.map (·.Days_In_Stage__c.getD 30)) else 30) := by
      split
      · apply div_nonneg
        · apply List.sum_nonneg
          intro x hx
          rw [List.mem_map] at hx
          obtain ⟨o, ho, rfl⟩ := hx
          cases hd : o.Days_In_Stage__c with
          | none => simp [hd]
          | some dd => simpa [hd] using hdays o ho dd hd
        · positivity
      · norm_num
    have : max 0 (1 - (if opps.any (·.Days_In_Stage__c.isSome) then
        meanQ (opps.map (·.Days_In_Stage__c.getD 30)) else 30) / 60) ≤ 1 := by
      apply max_le (by norm_num)
      have : 0 ≤ (if opps.any (·.Days_In_Stage__c.isSome) then
          meanQ (opps.map (·.Days_In_Stage__c.getD 30)) else 30) / 60 := by
        positivity
      linarith
    linarith

/-- The rating thresholds of `_calculate_health_score`. -/
theorem calculate_health_rating_spec (opps : List Opportunity) :
    ((calculate_health_score opps).rating = "Excellent" ↔
      75 ≤ (calculate_health_score opps).score) ∧
    ((calculate_health_score opps).rating = "Good" ↔
      55 ≤ (calculate_health_score opps).score ∧
        (calculate_health_score opps).score < 75) ∧
    ((calculate_health_score opps).rating = "Fair" ↔
      35 ≤ (calculate_health_score opps).score ∧
        (calculate_health_score opps).score < 55) ∧
    ((calculate_health_score opps).rating = "Poor" ↔
      (calculate_health_score opps).score < 35) := by
  unfold calculate_health_score
  dsimp only
  split_ifs with h1 h2 h3 <;> refine ⟨?_, ?_, ?_, ?_⟩ <;> simp_all <;>
    first
      | linarith
      | (constructor <;> linarith)
      | (rintro ⟨h4, h5⟩; linarith)
      | (intro h4; linarith)

/-- **C6.** For every non-empty opportunity list (with the data-model
invariants `Amount ≥ 0` and `Days_In_Stage__c ≥ 0`) on which
`analyse_pipeline` succeeds, the health score lies in `[0, 100]` (a sum of
four components each in `[0, 25]`), the rating follows the documented
thresholds, and with zero closed deals the win-rate component is
`0.5 × 25 = 12.5`. -/
theorem C6_health_score (opps : List Opportunity) (r : PipelineResult)
    (hne : opps ≠ [])
    (hok : analyse_pipeline pipeline_health_stages opps = .ok r)
    (hamt : ∀ o ∈ opps, 0 ≤ oppAmount o)
    (hdays : ∀ o ∈ opps, ∀ dd, o.Days_In_Stage__c = some dd → 0 ≤ dd) :
    (0 ≤ r.health_score.score ∧ r.health_score.score ≤ 100) ∧
    (r.health_score.rating = "Excellent" ↔ 75 ≤ r.health_score.score) ∧
    (r.health_score.rating = "Good" ↔
      55 ≤ r.health_score.score ∧ r.health_score.score < 75) ∧
    (r.health_score.rating = "Fair" ↔
      35 ≤ r.health_score.score ∧ r.health_score.score < 55) ∧
    (r.health_score.rating = "Poor" ↔ r.health_score.score < 35) ∧
    ((closedDeals opps).length = 0 →
      (r.health_score.breakdown.map (·.win_rate)).getD 0 = 12.5) := by
  obtain ⟨h1, _, _, rfl⟩ := analyse_pipeline_ok hok hne
  dsimp only
  obtain ⟨⟨hc0, hc25⟩, ⟨hd0, hd25⟩, ⟨hw0, hw25⟩, ⟨hv0, hv25⟩⟩ :=
    healthComponents_bounds opps h1 hamt hdays
  have hrate := calculate_health_rating_spec opps
  have hscore : (calculate_health_score opps).score =
      roundQ 1 ((healthComponents opps).1 + (healthComponents opps).2.1 +
        (healthComponents opps).2.2.1 + (healthComponents opps).2.2.2) := rfl
  refine ⟨⟨?_, ?_⟩, hrate.1, hrate.2.1, hrate.2.2.1, hrate.2.2.2, ?_⟩
  · rw [hscore]
    exact roundQ_nonneg (by linarith)
  · rw [hscore]
    have hle : ((healthComponents opps).1 + (healthComponents opps).2.1 +
        (healthComponents opps).2.2.1 + (healthComponents opps).2.2.2) *
        10 ^ 1 ≤ ((1000 : ℤ) : ℚ) := by
      push_cast
      linarith
    have := roundQ_le hle
    calc roundQ 1 _ ≤ ((1000 : ℤ) : ℚ) / 10 ^ 1 := this
    _ = 100 := by norm_num
  · intro hclosed
    have hwin : (healthComponents opps).2.2.1 = 12.5 := by
      simp only [healthComponents]
      rw [if_neg (by omega)]
      norm_num
    have : (calculate_health_score opps).breakdown =
        some { coverage := roundQ 1 (healthComponents opps).1
               distribution := roundQ 1 (healthComponents opps).2.1
               win_rate := roundQ 1 (healthComponents opps).2.2.1
               velocity := roundQ 1 (healthComponents opps).2.2.2 } := rfl
    rw [this]
    simp only [Option.map_some', Option.getD_some]
    rw [hwin]
    norm_num [roundQ, roundHalfEven]

def c6opp : Opportunity :=
  { AccountId := none, Amount := some 100, Probability := some 50,
    StageName := some "Prospecting", IsClosed := some false,
    IsWon := some false, ForecastCategory := some "Pipeline",
    Days_In_Stage__c := some 10 }

def c6opps : List Opportunity := [c6opp]

def c6r : PipelineResult :=
  (analyse_pipeline pipeline_health_stages c6opps).toOption.getD
    pipelineEmptyResult

theorem C6_witness :
    (0 ≤ c6r.health_score.score ∧ c6r.health_score.score ≤ 100) ∧
    (c6r.health_score.rating = "Poor" ↔ c6r.health_score.score < 35) ∧
    (c6r.health_score.breakdown.map (·.win_rate)).getD 0 = 12.5 := by
  have h := C6_health_score c6opps c6r (by simp [c6opps]) rfl
    (by
      intro o ho
      simp only [c6opps, List.mem_singleton] at ho
      rw [ho]
      norm_num [oppAmount, c6opp])
    (by
      intro o ho dd hdd
      simp only [c6opps, List.mem_singleton] at ho
      rw [ho] at hdd
      simp only [c6opp] at hdd
      rw [Option.some_inj] at hdd
      rw [← hdd]
      norm_num)
  exact ⟨h.1, h.2.2.2.2.1, h.2.2.2.2.2 rfl⟩

/-!
## C7: churn output invariants
-/

theorem case_risk_score_bounds (cases : List Case) (a : Account) :
    0 ≤ case_risk_score cases a ∧ case_risk_score cases a ≤ 1 := by
  unfold case_risk_score
  split
  · norm_num
  · have h1 := @le_clipQ 0 1
      (((cases.filter (caseMatches a)).length : ℚ) / 10)
    have h2 := @clipQ_le 0 1
      (((cases.filter (caseMatches a)).length : ℚ) / 10) (by norm_num)
    have h3 := @le_clipQ 0 1
      (((cases.filter fun c =>
        (c.Priority = some "High" ∨ c.Priority = some "Critical") ∧
          caseMatches a c).length : ℚ) / 3)
    have h4 := @clipQ_le 0 1
      (((cases.filter fun c =>
        (c.Priority = some "High" ∨ c.Priority = some "Critical") ∧
          caseMatches a c).length : ℚ) / 3) (by norm_num)
    constructor <;> nlinarith

theorem engagement_risk_score_bounds (accounts : List Account) (now : ℤ)
    (a : Account) :
    0 ≤ engagement_risk_score accounts now a ∧
      engagement_risk_score accounts now a ≤ 1 := by
  unfold engagement_risk_score
  split
  · split
    · exact ⟨le_clipQ, clipQ_le (by norm_num)⟩
    · exact ⟨le_clipQ, clipQ_le (by norm_num)⟩
  · norm_num

theorem revenue_risk_score_bounds (opps : List Opportunity) (a : Account) :
    0 ≤ revenue_risk_score opps a ∧ revenue_risk_score opps a ≤ 1 := by
  unfold revenue_risk_score
  dsimp only
  repeat' split
  all_goals norm_num

theorem satisfaction_risk_score_bounds (cases : List Case) (a : Account) :
    0 ≤ satisfaction_risk_score cases a ∧
      satisfaction_risk_score cases a ≤ 1 := by
  unfold satisfaction_risk_score
  split
  · norm_num
  · exact ⟨le_clipQ, clipQ_le (by norm_num)⟩

/-- **C7.** Every row output by `predict_churn` has a composite score in
`[0, 1]`, a level among Low/Medium/High, and a non-empty risk-factor list
which is exactly the sentinel when no sub-score exceeds 0.6. -/
theorem C7_churn_invariants (th : ChurnRiskThresholds) (now : ℤ)
    (accounts : List Account) (cases : List Case) (opps : List Opportunity)
    (row : ScoredAccount)
    (hrow : row ∈ predict_churn th now accounts cases opps) :
    (0 ≤ row.Churn_Risk_Score ∧ row.Churn_Risk_Score ≤ 1) ∧
    (row.Churn_Risk_Level = "Low" ∨ row.Churn_Risk_Level = "Medium" ∨
      row.Churn_Risk_Level = "High") ∧
    row.Risk_Factors ≠ [] ∧
    ((case_risk_score cases row.account ≤ 0.6 ∧
      engagement_risk_score accounts now row.account ≤ 0.6 ∧
      revenue_risk_score opps row.account ≤ 0.6 ∧
      satisfaction_risk_score cases row.account ≤ 0.6) →
      row.Risk_Factors = ["No significant risk factors identified"]) := by
  obtain ⟨a, _, rfl⟩ := mem_predict_churn hrow
  dsimp only [scoreAccount]
  obtain ⟨hcr0, hcr1⟩ := case_risk_score_bounds cases a
  obtain ⟨her0, her1⟩ := engagement_risk_score_bounds accounts now a
  obtain ⟨hrr0, hrr1⟩ := revenue_risk_score_bounds opps a
  obtain ⟨hsr0, hsr1⟩ := satisfaction_risk_score_bounds cases a
  refine ⟨⟨?_, ?_⟩, ?_, ?_, ?_⟩
  · exact roundQ_nonneg (by nlinarith)
  · have hle : (case_risk_score cases a * 0.30 +
        engagement_risk_score accounts now a * 0.25 +
        revenue_risk_score opps a * 0.25 +
        satisfaction_risk_score cases a * 0.20) * 10 ^ 3 ≤ ((1000 : ℤ) : ℚ) := by
      push_cast
      nlinarith
    have := roundQ_le hle
    calc roundQ 3 _ ≤ ((1000 : ℤ) : ℚ) / 10 ^ 3 := this
    _ = 1 := by norm_num
  · unfold classify_risk
    split
    · right; right; rfl
    · split
      · right; left; rfl
      · left; rfl
  · unfold identify_risk_factors
    split_ifs <;> simp
  · intro ⟨h1, h2, h3, h4⟩
    unfold identify_risk_factors
    rw [if_neg (not_lt.mpr h1), if_neg (not_lt.mpr h2), if_neg (not_lt.mpr h3),
      if_neg (not_lt.mpr h4)]
    rfl

def c7account : Account :=
  { Id := some "C", Name := none, Industry := none, AnnualRevenue := none,
    LastActivityDate := none }

def c7row : ScoredAccount :=
  { account := c7account, Churn_Risk_Score := 0.26,
    Churn_Risk_Level := "Low",
    Risk_Factors := ["No significant risk factors identified"] }

theorem C7_witness :
    (0 ≤ c7row.Churn_Risk_Score ∧ c7row.Churn_Risk_Score ≤ 1) ∧
    (c7row.Churn_Risk_Level = "Low" ∨ c7row.Churn_Risk_Level = "Medium" ∨
      c7row.Churn_Risk_Level = "High") ∧
    c7row.Risk_Factors ≠ [] ∧
    c7row.Risk_Factors = ["No significant risk factors identified"] := by
  have h := C7_churn_invariants churn_risk_thresholds 0 [c7account] [] [] c7row
    (by
      have : predict_churn churn_risk_thresholds 0 [c7account] [] [] =
          [c7row] := by
        simp only [predict_churn, List.isEmpty_cons, List.map_cons,
          List.map_nil, sortBy, insertBy, scoreAccount, case_risk_score,
          engagement_risk_score, revenue_risk_score, satisfaction_risk_score,
          classify_risk, identify_risk_factors, c7account, c7row,
          churn_risk_thresholds]
        norm_num [clipQ, roundQ, roundHalfEven]
      rw [this]
      exact List.mem_singleton.mpr rfl)
  refine ⟨h.1, h.2.1, h.2.2.1, h.2.2.2 ⟨?_, ?_, ?_, ?_⟩⟩
  · norm_num [case_risk_score]
  · norm_num [engagement_risk_score, c7account, c7row]
  · norm_num [revenue_risk_score]
  · norm_num [satisfaction_risk_score]

/-!
## C8: forecast buckets
-/

def c8opp1 : Opportunity :=
  { AccountId := none, Amount := some 100, Probability := some 50,
    StageName := some "Prospecting", IsClosed := some false,
    IsWon := some false, ForecastCategory := some "Commit",
    Days_In_Stage__c := some 10 }

def c8opp2 : Opportunity :=
  { AccountId := none, Amount := some 50, Probability := some 20,
    StageName := some "Qualification", IsClosed := some false,
    IsWon := some false, ForecastCategory := none,
    Days_In_Stage__c := some 10 }

def c8opps : List Opportunity := [c8opp1, c8opp2]

def c8r : PipelineResult :=
  (analyse_pipeline pipeline_health_stages c8opps).toOption.getD
    pipelineEmptyResult

/-- **C8, counterexample.** An *open* deal with no `ForecastCategory` value
is not defaulted into the Pipeline bucket when the column exists: with one
open "Commit" deal of 100 and one uncategorized open deal of 50, the
forecast is `best_case = 0, commit = 100, pipeline = 0` — the 50 lands in
no bucket (the claim asserts `pipeline = 50`), while `total_weighted`
still covers both open deals (`100·0.5 + 50·0.2 = 60`). -/
theorem C8_counterexample :
    analyse_pipeline pipeline_health_stages c8opps = .ok c8r ∧
    c8r.forecast = some { best_case := 0, commit := 100, pipeline := 0,
                          total_weighted := 60 } ∧
    c8opp2 ∈ openDeals c8opps ∧ c8opp2.ForecastCategory = none ∧
    oppAmount c8opp2 = 50 ∧ (0 : ℚ) ≠ 50 := by
  refine ⟨rfl, ?_, ?_, rfl, by norm_num [oppAmount, c8opp2], by norm_num⟩
  · have : c8r.forecast = some (forecast c8opps) := rfl
    rw [this]
    simp [forecast, openDeals, forecastCategoryOf, oppAmount,
      oppProbability, c8opps, c8opp1, c8opp2]
    norm_num
  · simp [openDeals, c8opps, c8opp2]

/-- **C8 (amended).** The forecast is restricted to open deals:
`total_weighted` sums `Amount × Probability / 100` over exactly the open
deals; when no record carries `ForecastCategory`, every open deal is
defaulted into the Pipeline bucket (the other buckets are 0); when the
field is present on some record, each bucket sums exactly the open deals
whose own `ForecastCategory` equals that bucket's name — an open deal with
a missing value is counted in no bucket. -/
theorem C8_forecast_buckets (opps : List Opportunity) (r : PipelineResult)
    (hne : opps ≠ [])
    (hok : analyse_pipeline pipeline_health_stages opps = .ok r) :
    r.forecast = some (forecast opps) ∧
    (forecast opps).total_weighted =
      ((openDeals opps).map fun o => oppAmount o * oppProbability o / 100).sum ∧
    (opps.any (·.ForecastCategory.isSome) = false →
      (forecast opps).best_case = 0 ∧ (forecast opps).commit = 0 ∧
      (forecast opps).pipeline = ((openDeals opps).map oppAmount).sum) ∧
    (opps.any (·.ForecastCategory.isSome) = true →
      (forecast opps).best_case =
        (((openDeals opps).filter (·.ForecastCategory = some "Best Case")).map
          oppAmount).sum ∧
      (forecast opps).commit =
        (((openDeals opps).filter (·.ForecastCategory = some "Commit")).map
          oppAmount).sum ∧
      (forecast opps).pipeline =
        (((openDeals opps).filter (·.ForecastCategory = some "Pipeline")).map
          oppAmount).sum) := by
  obtain ⟨_, _, _, rfl⟩ := analyse_pipeline_ok hok hne
  refine ⟨rfl, ?_, ?_, ?_⟩
  · unfold forecast
    dsimp only
    split
    · rename_i hod
      rw [List.isEmpty_iff] at hod
      rw [hod]
      rfl
    · rfl
  · intro hFC
    unfold forecast
    dsimp only
    split
    · rename_i hod
      rw [List.isEmpty_iff] at hod
      rw [hod]
      simp
    · rw [hFC]
      refine ⟨?_, ?_, ?_⟩
      · have : ((openDeals opps).filter
            (forecastCategoryOf false · = some "Best Case")) = [] :=
          List.filter_eq_nil_iff.mpr fun o _ => by simp [forecastCategoryOf]
        rw [this]
        rfl
      · have : ((openDeals opps).filter
            (forecastCategoryOf false · = some "Commit")) = [] :=
          List.filter_eq_nil_iff.mpr fun o _ => by simp [forecastCategoryOf]
        rw [this]
        rfl
      · have : ((openDeals opps).filter
            (forecastCategoryOf false · = some "Pipeline")) =
            openDeals opps := by
          apply List.filter_eq_self.mpr
          intro o _
          simp [forecastCategoryOf]
        rw [this]
  · intro hFC
    unfold forecast
    dsimp only
    split
    · rename_i hod
      rw [List.isEmpty_iff] at hod
      rw [hod]
      simp
    · rw [hFC]
      exact ⟨rfl, rfl, rfl⟩

def c8wopp1 : Opportunity :=
  { AccountId := none, Amount := some 100, Probability := some 50,
    StageName := some "Prospecting", IsClosed := some false,
    IsWon := some false, ForecastCategory := some "Commit",
    Days_In_Stage__c := some 10 }

def c8wopp2 : Opportunity :=
  { AccountId := none, Amount := some 50, Probability := some 20,
    StageName := some "Qualification", IsClosed := some true,
    IsWon := some false, ForecastCategory := some "Pipeline",
    Days_In_Stage__c := some 10 }

def c8wopps : List Opportunity := [c8wopp1, c8wopp2]

def c8wr : PipelineResult :=
  (analyse_pipeline pipeline_health_stages c8wopps).toOption.getD
    pipelineEmptyResult

theorem C8_witness :
    c8wr.forecast = some (forecast c8wopps) ∧
    (forecast c8wopps).total_weighted =
      ((openDeals c8wopps).map fun o =>
        oppAmount o * oppProbability o / 100).sum ∧
    (forecast c8wopps).commit =
      (((openDeals c8wopps).filter (·.ForecastCategory = some "Commit")).map
        oppAmount).sum := by
  have h := C8_forecast_buckets c8wopps c8wr (by simp [c8wopps]) rfl
  exact ⟨h.1, h.2.1, (h.2.2.2 (by simp [c8wopps, c8wopp1])).2.1⟩

/-!
## C9: missing `NumberOfEmployees`
-/

def c9lead : Lead :=
  { NumberOfEmployees := none, AnnualRevenue := some 0,
    Industry := some "Technology", Website_Visits__c := some 0,
    Content_Downloads__c := some 0, Email_Opens__c := some 0,
    Days_Since_Last_Activity__c := some 60 }

/-- **C9, counterexample.** When `NumberOfEmployees` is absent from the
*entire* collection, the `df.get` fallback is an empty Series, so the
company-size sub-score — and with it the whole `Lead_Score` — is `NaN`
(`none`) for every record, not `ln(1+1)/ln(1+10000)` with a score in
`[0, 100]` as the claim asserts.  (Shown for the dummy `log1p = fun _ => 0`;
the sub-score is `none` for every `log1p`.) -/
theorem C9_counterexample :
    hasNumberOfEmployeesCol [c9lead] = false ∧
    score_company_size (fun _ => 0) (hasNumberOfEmployeesCol [c9lead])
      c9lead = none ∧
    (score_leads (fun _ => 0) lead_score_weights [c9lead]).map
      (·.Lead_Score) = [none] :=
  ⟨rfl, rfl, rfl⟩

/-- Every sub-score is a (non-`NaN`) number when its column is present, so
the composite `Lead_Score` is too. -/
theorem leadScoreValue_isSome (log1p : ℚ → ℚ) (w : LeadScoreWeights)
    (leads : List Lead) (i : ℕ) (r : Lead)
    (hEmp : hasNumberOfEmployeesCol leads = true)
    (hRev : hasAnnualRevenueCol leads = true)
    (hInd : hasIndustryCol leads = true)
    (hVis : hasWebsiteVisitsCol leads = true)
    (hDl : hasContentDownloadsCol leads = true)
    (hOp : hasEmailOpensCol leads = true)
    (hDays : hasDaysSinceActivityCol leads = true) :
    (leadScoreValue log1p w leads i r).isSome = true := by
  unfold leadScoreValue
  rw [hEmp, hRev, hInd, hVis, hDl, hOp, hDays]
  simp [score_company_size, score_engagement, score_industry, score_budget,
    score_response_time, score_email_activity, bind]

/-- **C9 (amended).** When the collection does carry the scoring columns, a
record whose own `NumberOfEmployees` is missing gets the company-size
sub-score `log1p 1 / log1p 10000` — it is scored as if it had 1 employee —
and its composite `Lead_Score` is a well-defined number in `[0, 100]`.
When the field is absent from the entire collection the sub-score and the
composite are `NaN` instead (see the counterexample). -/
theorem C9_missing_employees (log1p : ℚ → ℚ) (w : LeadScoreWeights)
    (leads : List Lead) (r : ScoredLead)
    (hEmp : hasNumberOfEmployeesCol leads = true)
    (hRev : hasAnnualRevenueCol leads = true)
    (hInd : hasIndustryCol leads = true)
    (hVis : hasWebsiteVisitsCol leads = true)
    (hDl : hasContentDownloadsCol leads = true)
    (hOp : hasEmailOpensCol leads = true)
    (hDays : hasDaysSinceActivityCol leads = true)
    (hr : r ∈ score_leads log1p w leads)
    (hmiss : r.lead.NumberOfEmployees = none) :
    score_company_size log1p true r.lead = some (log1p 1 / log1p 10000) ∧
    r.Lead_Score.isSome = true ∧
    0 ≤ r.Lead_Score.getD 0 ∧ r.Lead_Score.getD 0 ≤ 100 := by
  obtain ⟨p, _, rfl⟩ := mem_score_leads hr
  dsimp only at hmiss ⊢
  have hsome := leadScoreValue_isSome log1p w leads p.1 p.2 hEmp hRev hInd
    hVis hDl hOp hDays
  obtain ⟨s, hs⟩ := Option.isSome_iff_exists.mp hsome
  obtain ⟨h0, h100⟩ := leadScoreValue_bounds hs
  refine ⟨?_, ?_, ?_, ?_⟩
  · simp [score_company_size, hmiss]
  · rw [hs]
    rfl
  · rw [hs]
    simpa using h0
  · rw [hs]
    simpa using h100

def c9wlead1 : Lead :=
  { NumberOfEmployees := none, AnnualRevenue := some 0,
    Industry := some "Technology", Website_Visits__c := some 0,
    Content_Downloads__c := some 0, Email_Opens__c := some 0,
    Days_Since_Last_Activity__c := some 60 }

def c9wlead2 : Lead :=
  { NumberOfEmployees := some 1, AnnualRevenue := some 0,
    Industry := some "Technology", Website_Visits__c := some 0,
    Content_Downloads__c := some 0, Email_Opens__c := some 0,
    Days_Since_Last_Activity__c := some 60 }

def c9wleads : List Lead := [c9wlead1, c9wlead2]

def c9wrow : ScoredLead :=
  { lead := c9wlead1, Lead_Score := some 15, Priority := some "Low" }

theorem C9_witness :
    score_company_size (fun _ => 0) true c9wrow.lead =
      some ((fun _ => (0 : ℚ)) 1 / (fun _ => (0 : ℚ)) 10000) ∧
    c9wrow.Lead_Score.isSome = true ∧
    0 ≤ c9wrow.Lead_Score.getD 0 ∧ c9wrow.Lead_Score.getD 0 ≤ 100 :=
  C9_missing_employees (fun _ => 0) lead_score_weights c9wleads c9wrow
    rfl rfl rfl rfl rfl rfl rfl
    (by
      have hval1 : leadScoreValue (fun _ => 0) lead_score_weights c9wleads 0
          c9wlead1 = some 15 := by
        norm_num [leadScoreValue, score_company_size, score_engagement,
          score_industry, score_budget, score_response_time,
          score_email_activity, hasNumberOfEmployeesCol, hasAnnualRevenueCol,
          hasIndustryCol, hasWebsiteVisitsCol, hasContentDownloadsCol,
          hasEmailOpensCol, hasDaysSinceActivityCol, c9wleads, c9wlead1,
          c9wlead2, clipQ, roundQ, roundHalfEven, lead_score_weights,
          target_industries, bind]
      have hval2 : leadScoreValue (fun _ => 0) lead_score_weights c9wleads 1
          c9wlead2 = some 15 := by
        norm_num [leadScoreValue, score_company_size, score_engagement,
          score_industry, score_budget, score_response_time,
          score_email_activity, hasNumberOfEmployeesCol, hasAnnualRevenueCol,
          hasIndustryCol, hasWebsiteVisitsCol, hasContentDownloadsCol,
          hasEmailOpensCol, hasDaysSinceActivityCol, c9wleads, c9wlead1,
          c9wlead2, clipQ, roundQ, roundHalfEven, lead_score_weights,
          target_industries, bind]
      have hzip : (List.range (c9wleads.length)).zip c9wleads =
          [(0, c9wlead1), (1, c9wlead2)] := rfl
      unfold score_leads
      rw [if_neg (by simp [c9wleads]), hzip]
      simp only [List.map_cons, List.map_nil, hval1, hval2, sortBy, insertBy,
        scoredLeadLE]
      norm_num [priorityOf, c9wrow])
    rfl

/-!
## C10: per-row missing `LastActivityDate`
-/

/-- **C10.** With the `LastActivityDate` column present in the dataset, an
account whose own value is missing or unparseable gets engagement risk
`90/90 = 1.0` (the `NaT` is filled as 90 days); the flat 0.3 default
applies exactly when no record carries the field. -/
theorem C10_engagement_missing_value (accounts : List Account) (now : ℤ)
    (a : Account) (ha : a ∈ accounts) :
    (accounts.any (·.LastActivityDate.isSome) = true →
      (a.LastActivityDate = none ∨ a.LastActivityDate = some none) →
      engagement_risk_score accounts now a = 1) ∧
    (accounts.any (·.LastActivityDate.isSome) = false →
      engagement_risk_score accounts now a = 0.3) := by
  constructor
  · intro hcol hval
    unfold engagement_risk_score
    rw [if_pos hcol]
    rcases hval with h | h <;> rw [h] <;>
      exact clipQ_eq_one (by norm_num)
  · intro hcol
    unfold engagement_risk_score
    rw [if_neg (by simp [hcol])]

def c10aNone : Account :=
  { Id := some "N", Name := none, Industry := none, AnnualRevenue := none,
    LastActivityDate := none }

def c10aSome : Account :=
  { Id := some "S", Name := none, Industry := none, AnnualRevenue := none,
    LastActivityDate := some (some 0) }

theorem C10_witness :
    engagement_risk_score [c10aNone, c10aSome] 5 c10aNone = 1 ∧
    engagement_risk_score [c10aNone] 5 c10aNone = 0.3 :=
  ⟨(C10_engagement_missing_value [c10aNone, c10aSome] 5 c10aNone
      (by simp) ).1 (by simp [c10aNone, c10aSome]) (Or.inl rfl),
   (C10_engagement_missing_value [c10aNone] 5 c10aNone
      (by simp) ).2 (by simp [c10aNone])⟩
